import Mathlib

/-!
Verification of the marketing KPI dashboard core (`src/marketing_kpi_app.py`):
the status classifier `calculate_status`, the status→color map
`get_status_color`, and the PowerPoint table renderer `create_powerpoint`.

Numeric cell values are embedded as `Option ℚ` (`none` models a pandas
missing value, i.e. `pd.isna` is true of it); statuses are the string
literals the Python code returns.
-/

namespace KPI

/-- Embedding of `pd.isna` on an optional numeric value: true exactly on the
missing value. -/
def isna (x : Option ℚ) : Bool := x.isNone

/-- Embedding of `calculate_status(actual, benchmark, direction)`
(src/marketing_kpi_app.py lines 18–37): Gray when either value is missing,
then the two recognized directions with a 10% tolerance band, else Gray. -/
def calculate_status (actual benchmark : Option ℚ) (direction : String) : String :=
  if isna actual || isna benchmark then "Gray"
  else
    let a := actual.getD 0
    let b := benchmark.getD 0
    if direction = "HigherIsBetter" then
      if a ≥ b then "Green"
      else if a ≥ b * (9/10) then "Yellow"
      else "Red"
    else if direction = "LowerIsBetter" then
      if a ≤ b then "Green"
      else if a ≤ b * (11/10) then "Yellow"
      else "Red"
    else "Gray"

/-- An RGB color triple, as in `pptx.dml.color.RGBColor`. -/
structure RGB where
  r : Nat
  g : Nat
  b : Nat
deriving DecidableEq, Repr

/-- Embedding of `get_status_color(status)` (lines 39–47): the fixed
status→color dictionary, with Gray's color as the `.get` default. -/
def get_status_color (status : String) : RGB :=
  if status = "Green" then ⟨34, 139, 34⟩
  else if status = "Yellow" then ⟨255, 165, 0⟩
  else if status = "Red" then ⟨220, 20, 60⟩
  else if status = "Gray" then ⟨128, 128, 128⟩
  else ⟨128, 128, 128⟩

/-- One DataFrame row of KPI data. A `none` field models a pandas missing
value (NaN); `direction` is the raw string from the Direction column. -/
structure Row where
  campaignType : Option String
  kpiName : Option String
  benchmark : Option ℚ
  actual : Option ℚ
  direction : String
deriving DecidableEq, Repr

/-- Model of Python `str` on an optional text cell (`str(nan)` is `"nan"`). -/
def pyStrS : Option String → String
  | none => "nan"
  | some s => s

/-- Model of Python `str` on an optional numeric cell: the natural string
form of the number, `"nan"` when the value is missing. -/
def pyStrQ : Option ℚ → String
  | none => "nan"
  | some q => toString q

/-- The attributes of one table cell that `create_powerpoint` sets: text,
solid fill color, font color, boldness, font size in points. A `none`
styling field means the python-pptx default was left untouched. -/
structure CellData where
  text : String
  fillColor : Option RGB
  fontColor : Option RGB
  bold : Bool
  fontSize : Option Nat
deriving DecidableEq, Repr

/-- A freshly allocated cell, before any mutation. -/
def emptyCell : CellData :=
  { text := "", fillColor := none, fontColor := none, bold := false,
    fontSize := none }

/-- A table is its grid of cells, row-major. -/
abbrev Table := List (List CellData)

/-- Applying a mutation to the cell at column `c` of one table row; `none`
when `c` lies outside the row. -/
def setRowCell : List CellData → Nat → (CellData → CellData) →
    Option (List CellData)
  | [], _, _ => none
  | cell :: rest, 0, f => some (f cell :: rest)
  | cell :: rest, c + 1, f => (setRowCell rest c f).map (fun u => cell :: u)

/-- Embedding of `table.cell(r, c)` mutation: apply `f` to the cell at
row `r`, column `c`; `none` models the IndexError python-pptx raises when
the access lies outside the allocated grid. -/
def setCell : Table → Nat → Nat → (CellData → CellData) → Option Table
  | [], _, _, _ => none
  | rowCells :: rest, 0, c, f => (setRowCell rowCells c f).map (fun u => u :: rest)
  | rowCells :: rest, r + 1, c, f =>
      (setCell rest r c f).map (fun t => rowCells :: t)

/-- The header strings of line 95. -/
def headers : List String :=
  ["Campaign Type", "KPI Name", "Benchmark", "Actual", "Direction", "Status"]

/-- Embedding of the header loop (lines 96–103): each header cell gets its
text, 12pt bold white font, and a dark solid fill. -/
def setHeaders (tbl : Table) : Option Table :=
  headers.enum.foldlM
    (fun t p => setCell t 0 p.1 (fun c =>
      { c with text := p.2, fontSize := some 12, bold := true,
               fontColor := some ⟨255, 255, 255⟩,
               fillColor := some ⟨51, 51, 51⟩ })) tbl

/-- The sequence of cell mutations the body of the data loop (lines 106–125)
performs on table row `i+1`, as (column, update) pairs in program order:
the five text cells, the status cell (text, status-colored fill, white bold
font), then the styling pass over columns 0–4. -/
def rowUpdates (row : Row) : List (Nat × (CellData → CellData)) :=
  let status := calculate_status row.actual row.benchmark row.direction
  [ (0, fun c => { c with text := pyStrS row.campaignType }),
    (1, fun c => { c with text := pyStrS row.kpiName }),
    (2, fun c => { c with text := pyStrQ row.benchmark }),
    (3, fun c => { c with text := pyStrQ row.actual }),
    (4, fun c => { c with text := row.direction }),
    (5, fun c => { c with text := status, fillColor := some (get_status_color status), fontColor := some ⟨255, 255, 255⟩, bold := true }),
    (0, fun c => { c with fontSize := some 10, fontColor := some ⟨51, 51, 51⟩ }),
    (1, fun c => { c with fontSize := some 10, fontColor := some ⟨51, 51, 51⟩ }),
    (2, fun c => { c with fontSize := some 10, fontColor := some ⟨51, 51, 51⟩ }),
    (3, fun c => { c with fontSize := some 10, fontColor := some ⟨51, 51, 51⟩ }),
    (4, fun c => { c with fontSize := some 10, fontColor := some ⟨51, 51, 51⟩ }) ]

/-- One iteration of the data loop: perform the row's cell mutations, all
addressed at table row `i + 1` where `i` is the DataFrame index. -/
def writeDataRow (tbl : Table) (i : Nat) (row : Row) : Option Table :=
  (rowUpdates row).foldlM (fun t p => setCell t (i + 1) p.1 p.2) tbl

/-- Embedding of `for i, row in df.iterrows()` (lines 106–125): the
DataFrame is a list of (index, row) pairs, iterated in order. -/
def writeDataRows (tbl : Table) (df : List (Nat × Row)) : Option Table :=
  df.foldlM (fun t p => writeDataRow t p.1 p.2) tbl

/-- The structural content of the presentation `create_powerpoint` builds:
title-slide text, fixed subtitle, the table slide's heading, and the table
grid. -/
structure Prs where
  titleText : String
  subtitleText : String
  tableTitle : String
  table : Table
deriving DecidableEq, Repr

/-- A freshly allocated table row of six cells (line 82: `cols = 6`). -/
def blankRow : List CellData := List.replicate 6 emptyCell

/-- Embedding of `create_powerpoint(df, company_name)` (lines 49–127): the
table is allocated with `len(df) + 1` rows (line 81), the header row is
written, then each DataFrame row is written at table row index `i + 1`.
`none` models an IndexError escaping from a cell access. -/
def create_powerpoint (df : List (Nat × Row)) (company_name : String) :
    Option Prs := do
  let tbl1 ← setHeaders (List.replicate (df.length + 1) blankRow)
  let tbl2 ← writeDataRows tbl1 df
  pure { titleText := "Marketing KPI Dashboard - " ++ company_name ++ " Benchmarks",
         subtitleText := "Status view across Campaign Types and KPIs",
         tableTitle := "Dashboard Status",
         table := tbl2 }

/-- Pandas default RangeIndex: pair each row with its position, from `k`. -/
def enumIdx : Nat → List Row → List (Nat × Row)
  | _, [] => []
  | k, r :: rs => (k, r) :: enumIdx (k + 1) rs

/-- A record sequence as a default-indexed DataFrame: row `j` has index `j`. -/
def default_index (records : List Row) : List (Nat × Row) := enumIdx 0 records

/-- Rendering an ordered record sequence: `create_powerpoint` on the
default-indexed DataFrame holding the records. -/
def create_powerpoint_seq (records : List Row) (company_name : String) :
    Option Prs :=
  create_powerpoint (default_index records) company_name

/-- Embedding of `df.dropna(subset=['Campaign Type', 'KPI Name'])`
(line 163): drop rows whose campaign type or KPI name is missing; pandas
keeps the surviving rows' original index labels. -/
def dropna_subset (df : List (Nat × Row)) : List (Nat × Row) :=
  df.filter (fun p => p.2.campaignType.isSome && p.2.kpiName.isSome)

/-- A header cell as the header loop leaves it. -/
def headerCell (h : String) : CellData :=
  { text := h, fillColor := some ⟨51, 51, 51⟩, fontColor := some ⟨255, 255, 255⟩,
    bold := true, fontSize := some 12 }

/-- The fully written header row. -/
def headerRowCells : List CellData := headers.map headerCell

/-- The six cells of a data row as the loop body leaves them: texts are the
string forms of the record's fields, the status cell carries the computed
status and its color, columns 0–4 the 10pt dark styling. -/
def renderedRow (row : Row) : List CellData :=
  let status := calculate_status row.actual row.benchmark row.direction
  [ { text := pyStrS row.campaignType, fillColor := none,
      fontColor := some ⟨51, 51, 51⟩, bold := false, fontSize := some 10 },
    { text := pyStrS row.kpiName, fillColor := none,
      fontColor := some ⟨51, 51, 51⟩, bold := false, fontSize := some 10 },
    { text := pyStrQ row.benchmark, fillColor := none,
      fontColor := some ⟨51, 51, 51⟩, bold := false, fontSize := some 10 },
    { text := pyStrQ row.actual, fillColor := none,
      fontColor := some ⟨51, 51, 51⟩, bold := false, fontSize := some 10 },
    { text := row.direction, fillColor := none,
      fontColor := some ⟨51, 51, 51⟩, bold := false, fontSize := some 10 },
    { text := status, fillColor := some (get_status_color status),
      fontColor := some ⟨255, 255, 255⟩, bold := true, fontSize := none } ]

/-- The presentation `create_powerpoint` produces on a default-indexed
DataFrame: titles plus the header row followed by one rendered row per
record, in input order. -/
def report (records : List Row) (company_name : String) : Prs :=
  { titleText := "Marketing KPI Dashboard - " ++ company_name ++ " Benchmarks",
    subtitleText := "Status view across Campaign Types and KPIs",
    tableTitle := "Dashboard Status",
    table := headerRowCells :: records.map renderedRow }

/-- A default row used only as the fallback argument of `List.getD`. -/
def dummyRow : Row :=
  { campaignType := none, kpiName := none, benchmark := none, actual := none,
    direction := "" }

/-- A concrete well-formed KPI row, for witnesses. -/
def testRow : Row :=
  { campaignType := some "Events", kpiName := some "CTR",
    benchmark := some 2, actual := some 1, direction := "HigherIsBetter" }

/-- A concrete row whose KPI name is missing, so `dropna` drops it. -/
def badRow : Row :=
  { campaignType := some "Social", kpiName := none,
    benchmark := some 1, actual := some 1, direction := "HigherIsBetter" }

/-- A concrete two-row uploaded DataFrame with default index 0, 1 whose
first row is missing its KPI name. -/
def uploadDf : List (Nat × Row) := [(0, badRow), (1, testRow)]

end KPI

namespace KPI

/-- Setting a cell in a later row commutes with peeling the first row. -/
theorem setCell_cons (x : List CellData) (t : Table) (r c : Nat)
    (f : CellData → CellData) :
    setCell (x :: t) (r + 1) c f = (setCell t r c f).map (fun u => x :: u) :=
  rfl

/-- A fold of cell mutations addressed at row `r + 1` commutes with peeling
the first table row. -/
theorem foldlM_setCell_cons (ups : List (Nat × (CellData → CellData))) :
    ∀ (x : List CellData) (t : Table) (r : Nat),
    ups.foldlM (fun u p => setCell u (r + 1) p.1 p.2) (x :: t)
      = (ups.foldlM (fun u p => setCell u r p.1 p.2) t).map (fun u => x :: u) := by
  induction ups with
  | nil => intro x t r; rfl
  | cons p ps ih =>
    intro x t r
    rw [List.foldlM_cons, List.foldlM_cons, setCell_cons]
    cases setCell t r p.1 p.2 with
    | none => rfl
    | some u => simpa using ih x u r

/-- Writing a data row for DataFrame index `i + 1` commutes with peeling the
first table row. -/
theorem writeDataRow_cons (x : List CellData) (t : Table) (i : Nat)
    (row : Row) :
    writeDataRow (x :: t) (i + 1) row
      = (writeDataRow t i row).map (fun u => x :: u) :=
  foldlM_setCell_cons (rowUpdates row) x t (i + 1)

/-- Writing a data row at index 0 into a table whose row 1 is blank fills
that row completely. -/
theorem writeDataRow_zero (x : List CellData) (post : Table) (row : Row) :
    writeDataRow (x :: blankRow :: post) 0 row
      = some (x :: renderedRow row :: post) := rfl

/-- Writing a data row for index `i` lands exactly in table row `i + 1`. -/
theorem writeDataRow_at : ∀ (i : Nat) (pre post : Table) (row : Row),
    pre.length = i + 1 →
    writeDataRow (pre ++ blankRow :: post) i row
      = some (pre ++ renderedRow row :: post) := by
  intro i
  induction i with
  | zero =>
    intro pre post row h
    cases pre with
    | nil => simp at h
    | cons x pre' =>
      cases pre' with
      | nil => exact writeDataRow_zero x post row
      | cons y t => simp at h
  | succ n ih =>
    intro pre post row h
    cases pre with
    | nil => simp at h
    | cons x pre' =>
      have h' : pre'.length = n + 1 := by simpa using h
      calc writeDataRow ((x :: pre') ++ blankRow :: post) (n + 1) row
          = (writeDataRow (pre' ++ blankRow :: post) n row).map
              (fun u => x :: u) := writeDataRow_cons x _ n row
        _ = some ((x :: pre') ++ renderedRow row :: post) := by
            rw [ih pre' post row h']; rfl

/-- Iterating the data loop over rows indexed `k, k+1, …` fills the blank
tail of the table with the rendered rows, in order. -/
theorem writeDataRows_at : ∀ (records : List Row) (k : Nat) (done : Table),
    done.length = k →
    writeDataRows
        (headerRowCells :: (done ++ List.replicate records.length blankRow))
        (enumIdx k records)
      = some (headerRowCells :: (done ++ records.map renderedRow)) := by
  intro records
  induction records with
  | nil => intro k done h; simp [writeDataRows, enumIdx]
  | cons r rs ih =>
    intro k done h
    have hw : writeDataRow
        (headerRowCells :: (done ++ blankRow :: List.replicate rs.length blankRow)) k r
        = some (headerRowCells :: (done ++ renderedRow r :: List.replicate rs.length blankRow)) := by
      have := writeDataRow_at k (headerRowCells :: done)
        (List.replicate rs.length blankRow) r (by simp [h])
      simpa using this
    have step : writeDataRows
        (headerRowCells :: (done ++ List.replicate (r :: rs).length blankRow))
        (enumIdx k (r :: rs))
        = writeDataRows
            (headerRowCells :: (done ++ renderedRow r :: List.replicate rs.length blankRow))
            (enumIdx (k + 1) rs) := by
      show List.foldlM _ _ ((k, r) :: enumIdx (k + 1) rs) = _
      rw [List.foldlM_cons]
      show (writeDataRow
        (headerRowCells :: (done ++ blankRow :: List.replicate rs.length blankRow)) k r).bind _ = _
      rw [hw]
      rfl
    rw [step]
    have h2 : (done ++ [renderedRow r]).length = k + 1 := by simp [h]
    have := ih (k + 1) (done ++ [renderedRow r]) h2
    simpa using this

/-- The header loop fills row 0 of a fresh table with the header cells. -/
theorem setHeaders_eq (rest : Table) :
    setHeaders (blankRow :: rest) = some (headerRowCells :: rest) := rfl

/-- The default index enumerates positions, so it has the same length. -/
theorem enumIdx_length : ∀ (k : Nat) (rs : List Row),
    (enumIdx k rs).length = rs.length := by
  intro k rs
  induction rs generalizing k with
  | nil => rfl
  | cons r t ih => simp [enumIdx, ih]

/-- On a default-indexed DataFrame, `create_powerpoint` succeeds and builds
exactly the report: titles plus header row plus one rendered row per record,
in input order. -/
theorem create_powerpoint_seq_eq (records : List Row) (company_name : String) :
    create_powerpoint_seq records company_name
      = some (report records company_name) := by
  unfold create_powerpoint_seq create_powerpoint
  rw [show (default_index records).length = records.length from
    enumIdx_length 0 records]
  rw [show List.replicate (records.length + 1) blankRow
      = blankRow :: List.replicate records.length blankRow from rfl]
  rw [show setHeaders (blankRow :: List.replicate records.length blankRow)
      = some (headerRowCells :: List.replicate records.length blankRow) from
    setHeaders_eq _]
  have := writeDataRows_at records 0 [] rfl
  simp only [List.nil_append] at this
  show (writeDataRows (headerRowCells :: List.replicate records.length blankRow)
      (default_index records)).bind _ = _
  rw [show default_index records = enumIdx 0 records from rfl, this]
  rfl

/-- Claim C1: under `HigherIsBetter`, `calculate_status` is Green iff
`actual ≥ benchmark`, Yellow iff `benchmark * 0.9 ≤ actual < benchmark`,
Red otherwise; with the listed concrete cases, including the degenerate
zero-benchmark tolerance band. -/
theorem C1_higher_is_better (a b : ℚ) :
    (calculate_status (some a) (some b) "HigherIsBetter" = "Green" ↔ a ≥ b) ∧
    (calculate_status (some a) (some b) "HigherIsBetter" = "Yellow" ↔
      b * (9/10) ≤ a ∧ a < b) ∧
    (calculate_status (some a) (some b) "HigherIsBetter" = "Red" ↔
      ¬ a ≥ b ∧ ¬ (b * (9/10) ≤ a ∧ a < b)) ∧
    calculate_status (some 100) (some 100) "HigherIsBetter" = "Green" ∧
    calculate_status (some 91) (some 100) "HigherIsBetter" = "Yellow" ∧
    calculate_status (some 89) (some 100) "HigherIsBetter" = "Red" ∧
    calculate_status (some 0) (some 0) "HigherIsBetter" = "Green" ∧
    calculate_status (some (-1)) (some 0) "HigherIsBetter" = "Red" := by
  refine ⟨?_, ?_, ?_, ?_, ?_, ?_, ?_, ?_⟩
  · simp only [calculate_status, isna]
    split_ifs with h1 h2 <;> simp_all
  · simp only [calculate_status, isna]
    split_ifs with h1 h2 <;> simp_all
  · simp only [calculate_status, isna]
    split_ifs with h1 h2 <;> simp_all
  all_goals norm_num [calculate_status, isna]

/-- Claim C2: under `LowerIsBetter`, `calculate_status` is Green iff
`actual ≤ benchmark`, Yellow iff `benchmark < actual ≤ benchmark * 1.1`
(the program's literal arithmetic, embedded exactly as `b * (11/10)`),
Red otherwise; with the listed concrete cases. -/
theorem C2_lower_is_better (a b : ℚ) :
    (calculate_status (some a) (some b) "LowerIsBetter" = "Green" ↔ a ≤ b) ∧
    (calculate_status (some a) (some b) "LowerIsBetter" = "Yellow" ↔
      b < a ∧ a ≤ b * (11/10)) ∧
    (calculate_status (some a) (some b) "LowerIsBetter" = "Red" ↔
      ¬ a ≤ b ∧ ¬ (b < a ∧ a ≤ b * (11/10))) ∧
    calculate_status (some 100) (some 100) "LowerIsBetter" = "Green" ∧
    calculate_status (some 109) (some 100) "LowerIsBetter" = "Yellow" ∧
    calculate_status (some 111) (some 100) "LowerIsBetter" = "Red" := by
  refine ⟨?_, ?_, ?_, ?_, ?_, ?_⟩
  · simp only [calculate_status, isna]
    split_ifs with h1 h2 <;> simp_all
  · simp only [calculate_status, isna]
    split_ifs with h1 h2 <;> simp_all
  · simp only [calculate_status, isna]
    split_ifs with h1 h2 <;> simp_all
  all_goals norm_num [calculate_status, isna] <;> decide

/-- Claim C3: a missing actual or benchmark yields Gray for every direction
string, taking precedence over the direction rules; classification is a total
function (the embedding returns a status for all optional numeric inputs, so
no error is raised), and the two concrete absent-value cases hold. -/
theorem C3_absent_is_gray :
    (∀ (b : Option ℚ) (direction : String),
      calculate_status none b direction = "Gray") ∧
    (∀ (a : Option ℚ) (direction : String),
      calculate_status a none direction = "Gray") ∧
    calculate_status none (some 5) "HigherIsBetter" = "Gray" ∧
    calculate_status (some 5) none "LowerIsBetter" = "Gray" := by
  refine ⟨?_, ?_, rfl, rfl⟩
  · intro b direction; rfl
  · intro a direction
    cases a <;> rfl

/-- Claim C4: for numeric inputs and a direction that is neither
`HigherIsBetter` nor `LowerIsBetter`, `calculate_status` returns Gray
(rather than raising an error — the embedding is total). -/
theorem C4_unknown_direction_gray (a b : ℚ) (direction : String)
    (h1 : direction ≠ "HigherIsBetter") (h2 : direction ≠ "LowerIsBetter") :
    calculate_status (some a) (some b) direction = "Gray" := by
  simp only [calculate_status, isna]
  split_ifs <;> simp_all

/-- Witness for C4 at the concrete direction string `Unknown`. -/
theorem C4_unknown_direction_gray_witness :
    calculate_status (some 3) (some 7) "Unknown" = "Gray" :=
  C4_unknown_direction_gray 3 7 "Unknown" (by decide) (by decide)

/-- Claim C10: with a nonpositive benchmark the Yellow band is empty for both
recognized directions, so the result is always Green or Red. -/
theorem C10_nonpositive_benchmark_no_yellow (a b : ℚ) (hb : b ≤ 0) :
    (calculate_status (some a) (some b) "HigherIsBetter" ≠ "Yellow" ∧
      (calculate_status (some a) (some b) "HigherIsBetter" = "Green" ∨
       calculate_status (some a) (some b) "HigherIsBetter" = "Red")) ∧
    (calculate_status (some a) (some b) "LowerIsBetter" ≠ "Yellow" ∧
      (calculate_status (some a) (some b) "LowerIsBetter" = "Green" ∨
       calculate_status (some a) (some b) "LowerIsBetter" = "Red")) := by
  constructor
  · simp only [calculate_status, isna]
    split_ifs with h1 h2 <;> simp_all <;> linarith
  · simp only [calculate_status, isna]
    split_ifs with h1 h2 <;> simp_all <;> linarith

/-- Witness for C10 at actual `-1`, benchmark `0`. -/
theorem C10_nonpositive_benchmark_no_yellow_witness :
    calculate_status (some (-1)) (some 0) "HigherIsBetter" ≠ "Yellow" :=
  (C10_nonpositive_benchmark_no_yellow (-1) 0 (by norm_num)).1.1

/-- In-range lookup into the mapped data rows gives the rendered row of the
record at that position. -/
theorem getD_map_renderedRow : ∀ (records : List Row) (i : Nat),
    i < records.length →
    (records.map renderedRow).getD i [] = renderedRow (records.getD i dummyRow) := by
  intro records
  induction records with
  | nil => intro i h; simp at h
  | cons r rs ih =>
    intro i h
    cases i with
    | zero => rfl
    | succ n =>
      simpa [List.getD_cons_succ] using ih n (by simpa using h)

/-- Claim C5: rendering a record sequence produces a table whose data rows
are exactly one per input record, in input order (no sorting or
deduplication), and each data cell's text is the string form of the
record's corresponding field. -/
theorem C5_rows_in_order (records : List Row) (company_name : String) :
    (∃ prs : Prs, create_powerpoint_seq records company_name = some prs ∧
        prs.table = headerRowCells :: records.map renderedRow) ∧
    (records.map renderedRow).length = records.length ∧
    (∀ row : Row, (renderedRow row).map (fun c => c.text)
      = [pyStrS row.campaignType, pyStrS row.kpiName, pyStrQ row.benchmark,
         pyStrQ row.actual, row.direction,
         calculate_status row.actual row.benchmark row.direction]) := by
  refine ⟨⟨report records company_name,
    create_powerpoint_seq_eq records company_name, rfl⟩, by simp, fun row => rfl⟩

/-- Claim C6: each data row's Status cell carries the status computed by
`calculate_status` from that record's actual, benchmark and direction at
render time, its fill is the status's color, and the status→color mapping
is the fixed one of `get_status_color`. -/
theorem C6_status_cell (records : List Row) (company_name : String)
    (prs : Prs) (h : create_powerpoint_seq records company_name = some prs)
    (i : Nat) (hi : i < records.length) :
    ((prs.table.getD (i + 1) []).getD 5 emptyCell).text
        = calculate_status (records.getD i dummyRow).actual
            (records.getD i dummyRow).benchmark
            (records.getD i dummyRow).direction ∧
    ((prs.table.getD (i + 1) []).getD 5 emptyCell).fillColor
        = some (get_status_color (calculate_status
            (records.getD i dummyRow).actual
            (records.getD i dummyRow).benchmark
            (records.getD i dummyRow).direction)) ∧
    get_status_color "Green" = ⟨34, 139, 34⟩ ∧
    get_status_color "Yellow" = ⟨255, 165, 0⟩ ∧
    get_status_color "Red" = ⟨220, 20, 60⟩ ∧
    get_status_color "Gray" = ⟨128, 128, 128⟩ := by
  have hp : report records company_name = prs :=
    Option.some_inj.mp ((create_powerpoint_seq_eq records company_name).symm.trans h)
  subst hp
  refine ⟨?_, ?_, rfl, rfl, rfl, rfl⟩
  · rw [show (report records company_name).table
        = headerRowCells :: records.map renderedRow from rfl,
      List.getD_cons_succ, getD_map_renderedRow records i hi]
    rfl
  · rw [show (report records company_name).table
        = headerRowCells :: records.map renderedRow from rfl,
      List.getD_cons_succ, getD_map_renderedRow records i hi]
    rfl

/-- Witness for C6 at the one-record sequence `[testRow]`, row index 0. -/
theorem C6_status_cell_witness :
    (((report [testRow] "Acme").table.getD 1 []).getD 5 emptyCell).text
        = calculate_status ([testRow].getD 0 dummyRow).actual
            ([testRow].getD 0 dummyRow).benchmark
            ([testRow].getD 0 dummyRow).direction ∧
    (((report [testRow] "Acme").table.getD 1 []).getD 5 emptyCell).fillColor
        = some (get_status_color (calculate_status
            ([testRow].getD 0 dummyRow).actual
            ([testRow].getD 0 dummyRow).benchmark
            ([testRow].getD 0 dummyRow).direction)) ∧
    get_status_color "Green" = ⟨34, 139, 34⟩ ∧
    get_status_color "Yellow" = ⟨255, 165, 0⟩ ∧
    get_status_color "Red" = ⟨220, 20, 60⟩ ∧
    get_status_color "Gray" = ⟨128, 128, 128⟩ :=
  C6_status_cell [testRow] "Acme" (report [testRow] "Acme")
    (create_powerpoint_seq_eq [testRow] "Acme") 0 (by decide)

/-- Claim C7: rendering the empty record sequence succeeds and yields a
table of exactly the six-column header row and zero data rows. -/
theorem C7_empty_render (company_name : String) :
    (create_powerpoint_seq [] company_name).isSome = true ∧
    (create_powerpoint_seq [] company_name).map (fun prs => prs.table)
        = some [headerRowCells] ∧
    headerRowCells.map (fun c => c.text)
        = ["Campaign Type", "KPI Name", "Benchmark", "Actual", "Direction",
           "Status"] ∧
    headerRowCells.length = 6 := by
  have h := create_powerpoint_seq_eq [] company_name
  refine ⟨?_, ?_, rfl, rfl⟩
  · rw [h]; rfl
  · rw [h]; rfl

/-- Claim C8: rendering is deterministic — two calls on identical arguments
produce the identical document, and the output is a pure function of the
company name and record sequence alone. -/
theorem C8_deterministic (records records2 : List Row)
    (company_name company_name2 : String)
    (h1 : records = records2) (h2 : company_name = company_name2) :
    create_powerpoint_seq records company_name
        = create_powerpoint_seq records2 company_name2 ∧
    create_powerpoint_seq records company_name
        = some (report records company_name) := by
  subst h1; subst h2
  exact ⟨rfl, create_powerpoint_seq_eq records company_name⟩

/-- Witness for C8 on a concrete record sequence and company name. -/
theorem C8_deterministic_witness :
    create_powerpoint_seq [testRow] "Acme"
        = create_powerpoint_seq [testRow] "Acme" ∧
    create_powerpoint_seq [testRow] "Acme" = some (report [testRow] "Acme") :=
  C8_deterministic [testRow] [testRow] "Acme" "Acme" rfl rfl

/-- Claim C9: on a default-indexed DataFrame every cell access of the data
loop stays inside the `len(df) + 1`-row table, but on the non-contiguously
indexed DataFrame `dropna` produces from `uploadDf` (index 1 survives,
index 0 is dropped) the write to table row 2 lies outside the 2-row table,
so rendering fails with an IndexError. -/
theorem C9_index_bounds :
    (∀ (records : List Row) (company_name : String),
      (create_powerpoint (default_index records) company_name).isSome = true) ∧
    dropna_subset uploadDf = [(1, testRow)] ∧
    create_powerpoint (dropna_subset uploadDf) "Acme" = none := by
  refine ⟨?_, rfl, rfl⟩
  intro records company_name
  rw [show create_powerpoint (default_index records) company_name
      = create_powerpoint_seq records company_name from rfl,
    create_powerpoint_seq_eq]
  rfl

end KPI
